import Mathlib

/-!
Verification of the kev.in REST backend's authorization and user/exercise
CRUD behaviour, as a shallow embedding of the Python sources
`backend/lib/routes/user.py`, `backend/lib/routes/exercise.py` and
`backend/database/models.py`.

Conventions of the embedding:
* Python dictionaries and SQLAlchemy rows become Lean structures; the user
  table becomes a `List UserRecord`.
* Fallible Python code (statements that can raise) is embedded in
  `Except PyError`; an uncaught Python exception is `Except.error`.
* The JWT codec (the external PyJWT library) is embedded by its observable
  decode outcome `JwtOutcome`: either a decoded claim dictionary, a
  `jwt.exceptions.DecodeError` (malformed token or invalid signature, since
  `InvalidSignatureError` subclasses `DecodeError`), or an
  `ExpiredSignatureError` (which does NOT subclass `DecodeError`).
* SQLAlchemy `fetchone()` returns `None` when the result set is empty; it
  never raises `NoResultFound` (that is raised only by `Result.one()`), so
  the `except sqlalchemy.exc.NoResultFound` clauses in the source are dead
  code and subscripting the `None` row raises `TypeError`.
-/

namespace KevIn

/-- Role enumeration of the platform. Modelled from the spec: the route
handlers import `UserRole` from `backend.lib.interfaces.database`, a module
that is not part of the sources under verification; the spec describes the
role model as the ordered enumeration SuperAdmin, Admin, User with
SuperAdmin and Admin privileged, and both route files refer to the first
member as `UserRole.SAdmin` (with integer values 1, 2, 3). The copy of the
enum in `backend/database/models.py` spells the first member `SAdimn`;
the member names used here follow the routes. -/
inductive UserRole
  | SAdmin
  | Admin
  | User
deriving DecidableEq

/-- Integer value of the enum member, as in `backend/database/models.py`
(an `enum.IntEnum` with values 1, 2, 3). -/
def UserRole.value : UserRole → Int
  | .SAdmin => 1
  | .Admin => 2
  | .User => 3

/-- Member name string, Python `UserRole.X.name`, used by the GET /user
serialization `row["user_role"].name`. -/
def UserRole.name : UserRole → String
  | .SAdmin => "SAdmin"
  | .Admin => "Admin"
  | .User => "User"

/-- Python truthiness of a `UserRole` value: an `IntEnum` member is truthy
iff its integer value is nonzero. Used by `if args["user_role"]:` in
`UserResource.get`. -/
def UserRole.truthy (r : UserRole) : Bool := r.value != 0

/-- Row of the user table, after `UserModel` in
`backend/database/models.py`: columns user_id (integer primary key),
user_name, user_pass, user_mail (all non-nullable strings) and user_role
(non-nullable enum). -/
structure UserRecord where
  user_id : Int
  user_name : String
  user_pass : String
  user_mail : String
  user_role : UserRole
deriving DecidableEq

/-- Primary-key invariant of the user table: `user_id` is declared
`primary_key=True` in `UserModel`, so distinct rows have distinct ids. -/
def uniqueIds (db : List UserRecord) : Prop :=
  db.Pairwise (fun a b => a.user_id ≠ b.user_id)

/-- Value of the `user_admin` boolean column read by
`ExerciseResource._authorize` (`row["user_admin"]`). Modelled from the
spec: the schema actually autoloaded by the routes lives in
`backend.lib.interfaces.database`, which is not part of the sources under
verification; the spec defines the privileged set as SuperAdmin and Admin
("Privileged role: Admin or SuperAdmin; bypasses ownership checks"), so
the admin flag of a row holds exactly when its role is in that set. -/
def user_admin (r : UserRecord) : Bool :=
  decide (r.user_role = UserRole.SAdmin) || decide (r.user_role = UserRole.Admin)

/-- Python exceptions that the embedded code can raise (uncaught). -/
inductive PyError
  | expiredSignatureError
  | keyError (k : String)
  | typeError (msg : String)
  | integrityError (msg : String)
deriving DecidableEq

/-- Observable outcome of `jwt.decode(token, config.JWT_SECRET,
algorithms=["HS256"])` on a given bearer token: a decoded claim
dictionary, a `jwt.exceptions.DecodeError` (malformed token, or invalid
signature via its subclass `InvalidSignatureError`), or an
`ExpiredSignatureError`, which is a subclass of `InvalidTokenError` but
not of `DecodeError` and therefore is not caught by the
`except jwt.exceptions.DecodeError` clauses in the sources. -/
inductive JwtOutcome
  | ok (claims : List (String × Int))
  | decodeError
  | expiredSignature
deriving DecidableEq

/-- Python dictionary subscript `d[k]` on a string-keyed dict of ints,
returning `none` when the key is absent (the caller turns that into a
`KeyError`). -/
def dictGet (k : String) : List (String × Int) → Option Int
  | [] => none
  | (k2, v) :: rest => if k2 = k then some v else dictGet k rest

/-- Embedding of the row fetch performed by both `_authorize` methods:
`SELECT * FROM user WHERE user_id == uid` followed by `fetchone()`, which
yields the first matching row or `None`. -/
def findUser (db : List UserRecord) (uid : Int) : Option UserRecord :=
  (db.filter (fun r => decide (r.user_id = uid))).head?

/-- Embedding of `UserResource._authorize(token, user_id, change_admin)`
(user.py lines 257-294). The JWT is decoded (only
`jwt.exceptions.DecodeError` is caught, yielding False); the decoded dict
is subscripted at "user_id" (KeyError when absent); the user row is
fetched with `fetchone()` (the `except NoResultFound` clause is dead, a
missing row is `None` and `row["user_role"]` on `None` raises TypeError);
an SAdmin or Admin row is always granted; otherwise a `None` target is
denied, and any other target is granted exactly when it equals the
caller's own id and `change_admin` is not set. -/
def UserResource._authorize (db : List UserRecord) (token : JwtOutcome)
    (user_id : Option Int) (change_admin : Bool) : Except PyError Bool :=
  match token with
  | .decodeError => .ok false
  | .expiredSignature => .error .expiredSignatureError
  | .ok user_data =>
    match dictGet "user_id" user_data with
    | none => .error (.keyError "user_id")
    | some uid =>
      match findUser db uid with
      | none => .error (.typeError "NoneType object is not subscriptable")
      | some row =>
        if row.user_role = UserRole.SAdmin ∨ row.user_role = UserRole.Admin then
          .ok true
        else
          match user_id with
          | none => .ok false
          | some t => .ok (decide (t = row.user_id) && !change_admin)

/-- Embedding of `ExerciseResource._authorize(token, readOnly)`
(exercise.py lines 237-262). Decode handling is identical to the user
resource. After the row fetch, `readOnly` requests are granted
unconditionally (even when the row is `None`, since the readOnly branch
returns before the row is subscripted); write requests return the row's
`user_admin` column, and raise TypeError when the row is `None`. -/
def ExerciseResource._authorize (db : List UserRecord) (token : JwtOutcome)
    (readOnly : Bool) : Except PyError Bool :=
  match token with
  | .decodeError => .ok false
  | .expiredSignature => .error .expiredSignatureError
  | .ok user_data =>
    match dictGet "user_id" user_data with
    | none => .error (.keyError "user_id")
    | some uid =>
      match findUser db uid with
      | none =>
        if readOnly then .ok true
        else .error (.typeError "NoneType object is not subscriptable")
      | some row =>
        if readOnly then .ok true
        else .ok (user_admin row)

/-- Maximum page size. Modelled from the spec: `config.MAX_ITEMS_RETURNED`
lives in `backend.lib.core.config`, a module not part of the sources under
verification; the GET docstring in exercise.py pins its value ("It is
possible that the system returns up to config.MAX_ITEMS_RETURNED items. If
your query would select more items, only the first 20 items will be
returned"). -/
def MAX_ITEMS_RETURNED : Int := 20

/-- Parsed query arguments of GET /user (user.py lines 40-56), with the
parser defaults already applied: user_id defaults to 0, user_name and
user_mail to "", user_role to `UserRole.User`, user_offset to 0 and
user_limit to `MAX_ITEMS_RETURNED`. -/
structure GetArgs where
  user_id : Int
  user_name : String
  user_mail : String
  user_role : UserRole
  user_offset : Int
  user_limit : Int
deriving DecidableEq

/-- Serialized user row of a GET /user response (user.py lines 91-97):
the response dictionary holds user_id, user_name, user_mail and the role
member name; the user_pass column is not serialized. -/
structure UserOut where
  user_id : Int
  user_name : String
  user_mail : String
  user_role : String
deriving DecidableEq

/-- Serialization of one row into the GET /user response body
(user.py lines 92-97). -/
def serializeRow (r : UserRecord) : UserOut :=
  ⟨r.user_id, r.user_name, r.user_mail, r.user_role.name⟩

/-- Conjunction of the WHERE clauses accumulated by GET /user
(user.py lines 76-86): by Python truthiness, a nonzero user_id selects by
id (offset ignored), a zero user_id selects ids at or above the offset; a
nonempty user_name or user_mail adds an equality clause; a truthy
user_role (which every `UserRole` member is) adds the role clause. -/
def rowMatches (args : GetArgs) (r : UserRecord) : Bool :=
  (if args.user_id != 0 then decide (r.user_id = args.user_id)
   else decide (args.user_offset ≤ r.user_id))
  && (args.user_name == "" || decide (r.user_name = args.user_name))
  && (args.user_mail == "" || decide (r.user_mail = args.user_mail))
  && (!args.user_role.truthy || decide (r.user_role = args.user_role))

/-- Result set of the SELECT composed by GET /user: all WHERE clauses
apply conjunctively and, in SQL, LIMIT applies after filtering; the
`.limit(...)` call is only attached on the zero-user_id branch
(user.py line 80). -/
def runGetQuery (db : List UserRecord) (args : GetArgs) : List UserRecord :=
  let filtered := db.filter (rowMatches args)
  if args.user_id != 0 then filtered else filtered.take args.user_limit.toNat

/-- HTTP outcome of GET /user. -/
inductive GetResponse
  | badRequestLimit
  | loginRequired
  | noAccess
  | okRows (body : List UserOut)
deriving DecidableEq

/-- Embedding of `UserResource.get` (user.py lines 32-99) on parsed
arguments. Order of checks as in the source: first the page-limit range
check `args["user_limit"] not in range(config.MAX_ITEMS_RETURNED + 1)`
(400), then the token-cookie presence check (401), then `_authorize` with
the requested user_id (403 on deny), then the query (200). An exception
raised inside `_authorize` propagates out of the handler. -/
def UserResource.get (db : List UserRecord) (cookie : Option JwtOutcome)
    (args : GetArgs) : Except PyError GetResponse :=
  if args.user_limit < 0 ∨ MAX_ITEMS_RETURNED < args.user_limit then
    .ok .badRequestLimit
  else
    match cookie with
    | none => .ok .loginRequired
    | some token =>
      match UserResource._authorize db token (some args.user_id) false with
      | .error e => .error e
      | .ok false => .ok .noAccess
      | .ok true => .ok (.okRows ((runGetQuery db args).map serializeRow))

/-- Parsed body arguments of POST /user (user.py lines 110-116); all four
fields are required. -/
structure PostArgs where
  user_name : String
  user_pass : String
  user_mail : String
  user_role : UserRole
deriving DecidableEq

/-- HTTP outcome of POST /user. -/
inductive PostResponse
  | loginRequired
  | noAccess
  | conflictDuplicate
  | created (user_id : Int) (user_name : String) (user_mail : String)
deriving DecidableEq

/-- Shared creation path of POST /user (user.py lines 130-174), reached
after the admin-creation guard. The duplicate check counts rows with the
submitted name; on zero the new row is inserted with the password replaced
by `hashlib.sha256(...).hexdigest()` (the hash function is the external
hashlib collaborator, passed as a parameter, and the database-assigned
primary key is the parameter `newId`). The INSERT executed by
`session.add` plus `session.commit()` (lines 151-152) raises an uncaught
IntegrityError when the submitted mail is already present, because
`UserModel` declares user_mail `unique=True` (models.py line 37); only a
mail-fresh insert succeeds. The row is then re-selected by name and the
201 body is built from columns 0, 1 and 3 of the fetched row. The
`except NoResultFound` clause around `fetchone()` is dead code; were the
re-select empty, `row[0]` on `None` would raise TypeError (unreachable
here because the row was just inserted). -/
def postCreate (hash : String → String) (db : List UserRecord)
    (args : PostArgs) (newId : Int) : Except PyError (PostResponse × List UserRecord) :=
  if (db.filter (fun r => decide (r.user_name = args.user_name))).length = 0 then
    if (db.filter (fun r => decide (r.user_mail = args.user_mail))).length = 0 then
      let user : UserRecord :=
        ⟨newId, args.user_name, hash args.user_pass, args.user_mail, args.user_role⟩
      let db2 := db ++ [user]
      match (db2.filter (fun r => decide (r.user_name = args.user_name))).head? with
      | none => .error (.typeError "NoneType object is not subscriptable")
      | some row => .ok (.created row.user_id row.user_name row.user_mail, db2)
    else
      .error (.integrityError "UNIQUE constraint failed: user_model.user_mail")
  else
    .ok (.conflictDuplicate, db)

/-- Embedding of `UserResource.post` (user.py lines 101-174). When the
submitted role is SAdmin or Admin, a token cookie is required (401
without one) and `_authorize(token, change_admin=True)` must grant (403
otherwise); then the shared creation path runs. -/
def UserResource.post (hash : String → String) (db : List UserRecord)
    (cookie : Option JwtOutcome) (args : PostArgs) (newId : Int) :
    Except PyError (PostResponse × List UserRecord) :=
  if args.user_role = UserRole.SAdmin ∨ args.user_role = UserRole.Admin then
    match cookie with
    | none => .ok (.loginRequired, db)
    | some token =>
      match UserResource._authorize db token none true with
      | .error e => .error e
      | .ok false => .ok (.noAccess, db)
      | .ok true => postCreate hash db args newId
  else
    postCreate hash db args newId

/-- Parsed body arguments of PUT /user (user.py lines 184-191): user_id is
required, the four mutable fields are optional and parse to `None` when
absent from the request. -/
structure PutArgs where
  user_id : Int
  user_name : Option String
  user_pass : Option String
  user_mail : Option String
  user_role : Option UserRole
deriving DecidableEq

/-- HTTP outcome of PUT /user. -/
inductive PutResponse
  | loginRequired
  | noAccess
  | notFound
  | changed
deriving DecidableEq

/-- Embedding of `UserResource.put` (user.py lines 176-218). After the
cookie check, line 198 evaluates `args["user_admin"]` as the third
argument of `_authorize`; the parser (lines 184-189) never adds a
`user_admin` argument, so this subscript raises `KeyError("user_admin")`
before `_authorize` is called, for every request that carries a token
cookie. Lines 201-218 are therefore unreachable; they are embedded
separately as `putUpdateStep`. -/
def UserResource.put (db : List UserRecord) (cookie : Option JwtOutcome)
    (args : PutArgs) : Except PyError (PutResponse × List UserRecord) :=
  match cookie with
  | none => .ok (.loginRequired, db)
  | some _token => .error (.keyError "user_admin")

/-- Embedding of the update statement of PUT /user (user.py lines
201-210): `values = args.copy()` minus user_id, so every unsupplied
optional field contributes `None` and the UPDATE sets that column to NULL;
`UserModel` declares user_name, user_pass, user_mail and user_role
non-nullable, so executing the statement against at least one matched row
raises an IntegrityError, while matching no row touches nothing and
reports rowcount 0 (which the handler maps to 404). Returns the updated
table and the rowcount. -/
def putUpdateStep (db : List UserRecord) (args : PutArgs) :
    Except PyError (List UserRecord × Nat) :=
  let matched := db.filter (fun r => decide (r.user_id = args.user_id))
  if matched.length = 0 then
    .ok (db, 0)
  else
    match args.user_name, args.user_pass, args.user_mail, args.user_role with
    | some n, some p, some m, some ro =>
      .ok (db.map (fun r =>
            if r.user_id = args.user_id then
              ⟨r.user_id, n, p, m, ro⟩
            else r),
           matched.length)
    | _, _, _, _ => .error (.integrityError "NOT NULL constraint failed")

/-- Stand-in for the external hashlib collaborator, used only to
instantiate concrete scenarios and witnesses. It satisfies the two
contract properties the theorems assume of `sha256(...).hexdigest()`:
every output is a string of exactly 64 hexadecimal characters, and no
input is a fixed point (it maps the all-a digest to the all-b digest and
every other string to the all-a digest). Theorems about hashing quantify
over every hash function with these properties and use this one only to
discharge hypotheses at concrete inputs. -/
def hexDigestStub (s : String) : String :=
  if s = String.mk (List.replicate 64 'a') then String.mk (List.replicate 64 'b')
  else String.mk (List.replicate 64 'a')

/-- Sample table: a single unprivileged user. -/
def dbEve : List UserRecord :=
  [⟨5, "eve", "0a0b", "eve@example.com", UserRole.User⟩]

/-- Sample record: a super-admin with id 1. -/
def rootRecord : UserRecord :=
  ⟨1, "root", "0c0d", "root@example.com", UserRole.SAdmin⟩

/-- Sample table: a single super-admin. -/
def dbRoot : List UserRecord := [rootRecord]

/-- Sample table: a super-admin and an unprivileged user. -/
def dbMix : List UserRecord :=
  [rootRecord, ⟨2, "uma", "0a1b", "uma@example.com", UserRole.User⟩]

/-- Sample POST body: creation of an Admin account. -/
def bobArgs : PostArgs := ⟨"Bob", "pw", "bob@example.com", UserRole.Admin⟩

/-- Sample table state after the super-admin of `dbRoot` created the
Admin account of `bobArgs` (database-assigned id 2). -/
def dbRootAfter : List UserRecord :=
  dbRoot ++ [⟨2, "Bob", hexDigestStub "pw", "bob@example.com", UserRole.Admin⟩]

/-- Sample POST body: self-service creation of a role-User account. -/
def carlArgs : PostArgs := ⟨"Carl", "pw", "carl@example.com", UserRole.User⟩

/-- Sample record created from `carlArgs` with database-assigned id 2. -/
def carlRecord : UserRecord :=
  ⟨2, "Carl", hexDigestStub "pw", "carl@example.com", UserRole.User⟩

/-- Sample table: a single unprivileged user with id 1. -/
def dbAlice : List UserRecord :=
  [⟨1, "Alice", "0e0f", "alice@example.com", UserRole.User⟩]

/-- Token outcome of a validly signed, unexpired JWT for user 5. -/
def tokEve : JwtOutcome := .ok [("user_id", 5)]

/-- Token outcome of a validly signed, unexpired JWT for user 1. -/
def tokOne : JwtOutcome := .ok [("user_id", 1)]

deriving instance DecidableEq for Except

/-- Decidability of the primary-key invariant on concrete tables. -/
instance (db : List UserRecord) : Decidable (uniqueIds db) :=
  inferInstanceAs (Decidable (List.Pairwise (fun a b : UserRecord => a.user_id ≠ b.user_id) db))

/-! Helper lemmas shared by the claim theorems. -/

/-- Under the primary-key invariant, the row fetch of `_authorize` finds
exactly the stored record of the caller. -/
theorem findUser_of_mem (row : UserRecord) (uid : Int) (hid : row.user_id = uid) :
    ∀ db : List UserRecord, uniqueIds db → row ∈ db → findUser db uid = some row := by
  intro db
  induction db with
  | nil =>
    intro _ hm
    simp at hm
  | cons a rest ih =>
    intro hu hm
    rw [uniqueIds, List.pairwise_cons] at hu
    rcases List.mem_cons.mp hm with h | h
    · subst h
      simp [findUser, List.filter_cons, hid]
    · have hne : ¬ a.user_id = uid := fun he => (hu.1 row h) (he.trans hid.symm)
      have htail := ih hu.2 h
      rw [findUser] at htail ⊢
      simpa [List.filter_cons, hne] using htail

/-- Evaluation of `UserResource._authorize` for a caller whose fetched row
is privileged: the decision is ALLOW for every target and change_admin
flag. -/
theorem authorize_privileged (db : List UserRecord) (uid : Int) (row : UserRecord)
    (hf : findUser db uid = some row)
    (hr : row.user_role = UserRole.SAdmin ∨ row.user_role = UserRole.Admin)
    (target : Option Int) (ca : Bool) :
    UserResource._authorize db (JwtOutcome.ok [("user_id", uid)]) target ca = Except.ok true := by
  simp [UserResource._authorize, dictGet, hf, hr]

/-- Evaluation of `UserResource.post` when the admin-creation guard (if it
applies at all) grants access: the handler proceeds to the shared creation
path. -/
theorem post_eval_allowed (hash : String → String) (db : List UserRecord)
    (token : JwtOutcome) (args : PostArgs) (newId : Int)
    (hauth : UserResource._authorize db token none true = Except.ok true) :
    UserResource.post hash db (some token) args newId = postCreate hash db args newId := by
  rw [UserResource.post]
  by_cases hra : args.user_role = UserRole.SAdmin ∨ args.user_role = UserRole.Admin
  · rw [if_pos hra]
    simp only [hauth]
  · rw [if_neg hra]

/-- Evaluation of `UserResource.get` when the page limit is in range and
the authorization decision is ALLOW: the handler returns the serialized
query result. -/
theorem get_eval_allowed (db : List UserRecord) (token : JwtOutcome) (args : GetArgs)
    (hlim : ¬ (args.user_limit < 0 ∨ MAX_ITEMS_RETURNED < args.user_limit))
    (hauth : UserResource._authorize db token (some args.user_id) false = Except.ok true) :
    UserResource.get db (some token) args
      = Except.ok (GetResponse.okRows ((runGetQuery db args).map serializeRow)) := by
  rw [UserResource.get, if_neg hlim]
  simp only [hauth]

/-- Digest-format half of the hash contract, discharged by the stand-in:
every output has exactly 64 characters. -/
theorem hexDigestStub_len (s : String) : (hexDigestStub s).length = 64 := by
  rw [hexDigestStub]
  by_cases h : s = String.mk (List.replicate 64 'a')
  · rw [if_pos h]
    rfl
  · rw [if_neg h]
    rfl

/-- Fixed-point-freedom half of the hash contract, discharged by the
stand-in: no input hashes to itself. -/
theorem hexDigestStub_ne (s : String) : hexDigestStub s ≠ s := by
  rw [hexDigestStub]
  by_cases h : s = String.mk (List.replicate 64 'a')
  · rw [if_pos h, h]
    decide
  · rw [if_neg h]
    exact fun he => h he.symm

/-! Claim theorems. -/

/-- Claim C1: for every caller whose stored role is privileged (Admin or
SuperAdmin), and for every operation kind and every target user id
(including none), the user-resource authorization decision is ALLOW. -/
theorem c1_privileged_caller_always_allowed
    (db : List UserRecord) (row : UserRecord)
    (hu : uniqueIds db) (hm : row ∈ db)
    (hr : row.user_role = UserRole.SAdmin ∨ row.user_role = UserRole.Admin)
    (target : Option Int) (change_admin : Bool) :
    UserResource._authorize db (JwtOutcome.ok [("user_id", row.user_id)]) target change_admin
      = Except.ok true := by
  have hf := findUser_of_mem row row.user_id rfl db hu hm
  simp [UserResource._authorize, dictGet, hf, hr]

/-- Witness for C1: the super-admin of `dbRoot` is allowed a
target-free admin-creation operation. -/
theorem c1_witness :
    UserResource._authorize dbRoot (JwtOutcome.ok [("user_id", (1 : Int))]) none true
      = Except.ok true :=
  c1_privileged_caller_always_allowed dbRoot
    ⟨1, "root", "0c0d", "root@example.com", UserRole.SAdmin⟩
    (by decide) (by decide) (by decide) none true

/-- Claim C2 (code bug): `_authorize(change_admin=True, target=caller)` is
indeed DENY for a role-User caller, but the PUT /user handler never
produces the 403 the claim describes: line 198 reads `args["user_admin"]`,
a key that the request parser (lines 184-189) never adds, so every PUT
request carrying a token cookie raises `KeyError("user_admin")` before
`_authorize` runs. Evaluated here at user 5 (role User) attempting to set
user_role on their own record. -/
theorem c2_self_role_change_denied_but_put_crashes :
    UserResource._authorize dbEve tokEve (some 5) true = Except.ok false
    ∧ UserResource.put dbEve (some tokEve) ⟨5, none, none, none, some UserRole.Admin⟩
        = Except.error (PyError.keyError "user_admin") :=
  ⟨rfl, rfl⟩

/-- Claim C3: for every unprivileged (role User) caller and every target
user id different from the caller's own id, the authorization decision is
DENY, whatever the change_admin flag. -/
theorem c3_unprivileged_cross_target_denied
    (db : List UserRecord) (row : UserRecord)
    (hu : uniqueIds db) (hm : row ∈ db)
    (hrole : row.user_role = UserRole.User)
    (t : Int) (ht : t ≠ row.user_id) (change_admin : Bool) :
    UserResource._authorize db (JwtOutcome.ok [("user_id", row.user_id)]) (some t) change_admin
      = Except.ok false := by
  have hf := findUser_of_mem row row.user_id rfl db hu hm
  simp [UserResource._authorize, dictGet, hf, hrole, ht]

/-- Witness for C3: user 5 of `dbEve` is denied a write targeting user 7. -/
theorem c3_witness :
    UserResource._authorize dbEve (JwtOutcome.ok [("user_id", (5 : Int))]) (some 7) false
      = Except.ok false :=
  c3_unprivileged_cross_target_denied dbEve
    ⟨5, "eve", "0a0b", "eve@example.com", UserRole.User⟩
    (by decide) (by decide) (by decide) 7 (by decide) false

/-- Claim C4 (code bug): a decoded token whose user id matches no record
does not yield DENY; `fetchone()` returns `None` (the
`except NoResultFound` clause is dead code), so `row["user_role"]` raises
`TypeError` and the request fails as a server error instead of being
treated like an unauthenticated caller. Evaluated on an empty table and on
`dbEve` with a stale id, for two operation shapes. -/
theorem c4_missing_caller_record_raises
    : UserResource._authorize [] (JwtOutcome.ok [("user_id", 7)]) (some 7) false
        = Except.error (PyError.typeError "NoneType object is not subscriptable")
    ∧ UserResource._authorize dbEve (JwtOutcome.ok [("user_id", 9)]) none true
        = Except.error (PyError.typeError "NoneType object is not subscriptable") :=
  ⟨rfl, rfl⟩

/-- Claim C5: an exercise write (create, update or delete all pass
readOnly=False) is allowed exactly when the caller's stored role is
privileged (SAdmin or Admin, via the spec-modelled user_admin column),
and an exercise read (readOnly=True) is allowed for every successfully
authenticated caller regardless of role. -/
theorem c5_exercise_write_privileged_read_any
    (db : List UserRecord) (row : UserRecord)
    (hu : uniqueIds db) (hm : row ∈ db) :
    (ExerciseResource._authorize db (JwtOutcome.ok [("user_id", row.user_id)]) false
        = Except.ok true
      ↔ (row.user_role = UserRole.SAdmin ∨ row.user_role = UserRole.Admin))
    ∧ ExerciseResource._authorize db (JwtOutcome.ok [("user_id", row.user_id)]) true
        = Except.ok true := by
  have hf := findUser_of_mem row row.user_id rfl db hu hm
  constructor
  · simp [ExerciseResource._authorize, dictGet, hf, user_admin]
  · simp [ExerciseResource._authorize, dictGet, hf]

/-- Witness for C5: the super-admin of `dbRoot` may write exercises and
read them. -/
theorem c5_witness :
    (ExerciseResource._authorize dbRoot (JwtOutcome.ok [("user_id", (1 : Int))]) false
        = Except.ok true
      ↔ (rootRecord.user_role = UserRole.SAdmin ∨ rootRecord.user_role = UserRole.Admin))
    ∧ ExerciseResource._authorize dbRoot (JwtOutcome.ok [("user_id", (1 : Int))]) true
        = Except.ok true :=
  c5_exercise_write_privileged_read_any dbRoot rootRecord (by decide) (by decide)

/-- Counterexample to claim C6: an expired bearer token does not resolve
to DENY; `ExpiredSignatureError` is not a subclass of the only caught
exception `jwt.exceptions.DecodeError`, so it propagates out of
`_authorize` as an uncaught exception. -/
theorem c6_expired_token_escapes :
    UserResource._authorize dbEve JwtOutcome.expiredSignature (some 5) false
      = Except.error PyError.expiredSignatureError
    ∧ ¬ UserResource._authorize dbEve JwtOutcome.expiredSignature (some 5) false
        = Except.ok false
    ∧ ¬ UserResource._authorize dbEve JwtOutcome.expiredSignature (some 5) false
        = Except.ok true := by
  refine ⟨rfl, ?_, ?_⟩ <;> decide

/-- Amended claim C6: tokens failing with a jwt DecodeError (malformed
token or invalid signature) resolve to DENY without an exception in both
resource handlers; but an expired token, or a decoded token lacking the
user_id claim, propagates as an uncaught exception out of `_authorize`,
because only `jwt.exceptions.DecodeError` is caught. -/
theorem c6_amended_decode_error_denied
    (db : List UserRecord) (target : Option Int) (ca ro : Bool) :
    UserResource._authorize db JwtOutcome.decodeError target ca = Except.ok false
    ∧ ExerciseResource._authorize db JwtOutcome.decodeError ro = Except.ok false
    ∧ UserResource._authorize db JwtOutcome.expiredSignature target ca
        = Except.error PyError.expiredSignatureError
    ∧ ExerciseResource._authorize db JwtOutcome.expiredSignature ro
        = Except.error PyError.expiredSignatureError
    ∧ UserResource._authorize db (JwtOutcome.ok []) target ca
        = Except.error (PyError.keyError "user_id")
    ∧ ExerciseResource._authorize db (JwtOutcome.ok []) ro
        = Except.error (PyError.keyError "user_id") :=
  ⟨rfl, rfl, rfl, rfl, rfl, rfl⟩

/-- Counterexample to claim C7: a GET /user request with no token cookie
and an out-of-range user_limit is answered 400, not 401, because the
handler checks the page-limit range before the cookie. -/
theorem c7_bad_limit_overrides_missing_token :
    UserResource.get [] none ⟨0, "", "", UserRole.User, 0, 21⟩
      = Except.ok GetResponse.badRequestLimit
    ∧ ¬ UserResource.get [] none ⟨0, "", "", UserRole.User, 0, 21⟩
        = Except.ok GetResponse.loginRequired :=
  ⟨rfl, by decide⟩

/-- Amended claim C7: for every GET /user request that carries no token
cookie and whose user_limit lies in the accepted range 0 to
MAX_ITEMS_RETURNED, the response is 401, for every combination of the
other query parameters; an out-of-range user_limit is answered 400 even
without a token. -/
theorem c7_amended_no_cookie_401
    (db : List UserRecord) (args : GetArgs)
    (h0 : 0 ≤ args.user_limit) (h1 : args.user_limit ≤ MAX_ITEMS_RETURNED) :
    UserResource.get db none args = Except.ok GetResponse.loginRequired := by
  have hcond : ¬ (args.user_limit < 0 ∨ MAX_ITEMS_RETURNED < args.user_limit) :=
    not_or.mpr ⟨not_lt.mpr h0, not_lt.mpr h1⟩
  simp [UserResource.get, hcond]

/-- Witness for the amended C7: a cookie-less GET with default parameters
on `dbEve` is answered 401. -/
theorem c7_witness :
    UserResource.get dbEve none ⟨0, "", "", UserRole.User, 0, 20⟩
      = Except.ok GetResponse.loginRequired :=
  c7_amended_no_cookie_401 dbEve ⟨0, "", "", UserRole.User, 0, 20⟩ (by decide) (by decide)

/-- Claim C8 (code bug): an update with an empty set of mutable fields
never returns an UpdatedCount: with a token cookie present the handler
raises `KeyError("user_admin")` at line 198 before reaching the update,
and the update statement itself (lines 201-210, embedded as
`putUpdateStep`) would set every mutable column to NULL, because
`values = args.copy()` keeps the `None` placeholders of the unsupplied
optional fields, violating the NOT NULL constraints of `UserModel` on the
matched row instead of leaving the fields unchanged. Evaluated at an
existing id 1. -/
theorem c8_empty_update_crashes :
    UserResource.put dbAlice (some tokOne) ⟨1, none, none, none, none⟩
      = Except.error (PyError.keyError "user_admin")
    ∧ putUpdateStep dbAlice ⟨1, none, none, none, none⟩
      = Except.error (PyError.integrityError "NOT NULL constraint failed") :=
  ⟨rfl, rfl⟩

/-- Counterexample to claim C9: the super-admin of `dbRoot` creates the
Admin account "Bob" (assigned id 2), but the subsequent find by the
returned id — GET /user?user_id=2 with no explicit user_role parameter —
returns an empty result instead of a record matching the submitted
fields, because the user_role filter defaults to role User and always
fires, excluding the Admin row. -/
theorem c9_admin_roundtrip_returns_no_record :
    UserResource.post hexDigestStub dbRoot (some tokOne) bobArgs 2
      = Except.ok (PostResponse.created 2 "Bob" "bob@example.com", dbRootAfter)
    ∧ UserResource.get dbRootAfter (some tokOne) ⟨2, "", "", UserRole.User, 0, 20⟩
      = Except.ok (GetResponse.okRows [])
    ∧ GetResponse.okRows ([] : List UserOut)
      ≠ GetResponse.okRows
          [serializeRow ⟨2, "Bob", hexDigestStub "pw", "bob@example.com", UserRole.Admin⟩] :=
  ⟨rfl, rfl, by decide⟩

/-- Amended claim C9: for every successfully created user (fresh id, no
duplicate name, and a mail not violating the UNIQUE constraint — a
duplicate mail makes the INSERT raise, so no user is created), a
subsequent find by the returned id — with the user_role filter set to the
submitted role, since the default role filter otherwise hides non-User
accounts, as the counterexample shows — yields exactly one record whose
name, mail and role equal the submitted fields and whose credential is
the hash of the raw plaintext secret, a 64-character digest that differs
from (and is never equal to) the raw plaintext; and the credential field
is never included in any read result, whose shape is exactly user_id,
user_name, user_mail and the role name. The theorem quantifies over the
external hashlib collaborator: every hash function whose outputs are
64-character digests and that has no fixed point. Fixed-point freedom is
the property of sha256 hexdigest on which the claim's inequality rests:
no fixed point of sha256 is known, the digest format alone cannot decide
its existence, and the spec's round-trip property presupposes it, so it
is taken as part of the modelled contract of the collaborator. -/
theorem c9_amended_roundtrip
    (hash : String → String)
    (hlen : ∀ s, (hash s).length = 64)
    (hnofix : ∀ s, hash s ≠ s)
    (db : List UserRecord) (admin : UserRecord) (args : PostArgs) (newId : Int)
    (hu : uniqueIds db)
    (hadmin : admin ∈ db)
    (hpriv : admin.user_role = UserRole.SAdmin ∨ admin.user_role = UserRole.Admin)
    (hname : db.filter (fun r => decide (r.user_name = args.user_name)) = [])
    (hmail : db.filter (fun r => decide (r.user_mail = args.user_mail)) = [])
    (hfresh : ∀ r ∈ db, r.user_id ≠ newId)
    (hnz : newId ≠ 0) :
    UserResource.post hash db (some (JwtOutcome.ok [("user_id", admin.user_id)])) args newId
      = Except.ok (PostResponse.created newId args.user_name args.user_mail,
          db ++ [⟨newId, args.user_name, hash args.user_pass, args.user_mail, args.user_role⟩])
    ∧ findUser (db ++ [⟨newId, args.user_name, hash args.user_pass, args.user_mail, args.user_role⟩]) newId
      = some ⟨newId, args.user_name, hash args.user_pass, args.user_mail, args.user_role⟩
    ∧ (hash args.user_pass).length = 64
    ∧ hash args.user_pass ≠ args.user_pass
    ∧ UserResource.get (db ++ [⟨newId, args.user_name, hash args.user_pass, args.user_mail, args.user_role⟩])
        (some (JwtOutcome.ok [("user_id", admin.user_id)]))
        ⟨newId, "", "", args.user_role, 0, MAX_ITEMS_RETURNED⟩
      = Except.ok (GetResponse.okRows
          [⟨newId, args.user_name, args.user_mail, args.user_role.name⟩])
    ∧ (∀ r : UserRecord, serializeRow r = ⟨r.user_id, r.user_name, r.user_mail, r.user_role.name⟩) := by
  set u : UserRecord :=
    ⟨newId, args.user_name, hash args.user_pass, args.user_mail, args.user_role⟩ with hudef
  have hfa := findUser_of_mem admin admin.user_id rfl db hu hadmin
  have hu2 : uniqueIds (db ++ [u]) := by
    rw [uniqueIds, List.pairwise_append]
    refine ⟨hu, List.pairwise_singleton _ _, fun a ha b hb => ?_⟩
    simp at hb
    subst hb
    exact hfresh a ha
  have hfa2 := findUser_of_mem admin admin.user_id rfl (db ++ [u]) hu2
    (List.mem_append_left _ hadmin)
  have hpost : postCreate hash db args newId
      = Except.ok (PostResponse.created newId args.user_name args.user_mail, db ++ [u]) := by
    rw [postCreate]
    rw [if_pos (by rw [hname]; rfl)]
    rw [if_pos (by rw [hmail]; rfl)]
    simp only [List.filter_append, hname]
    simp [hudef]
  refine ⟨?_, ?_, hlen args.user_pass, hnofix args.user_pass, ?_, fun r => rfl⟩
  · rw [post_eval_allowed hash db _ args newId
      (authorize_privileged db admin.user_id admin hfa hpriv none true)]
    exact hpost
  · have hnilf : db.filter (fun r => decide (r.user_id = newId)) = [] :=
      List.filter_eq_nil_iff.mpr (fun a ha => by simp [hfresh a ha])
    rw [findUser, List.filter_append, hnilf]
    simp
  · have hnzb : ((newId : Int) != 0) = true := by simp [hnz]
    have hdbnil : db.filter (rowMatches ⟨newId, "", "", args.user_role, 0, MAX_ITEMS_RETURNED⟩) = [] :=
      List.filter_eq_nil_iff.mpr (fun a ha => by
        simp [rowMatches, hnzb, hfresh a ha])
    have hq : runGetQuery (db ++ [u]) ⟨newId, "", "", args.user_role, 0, MAX_ITEMS_RETURNED⟩ = [u] := by
      rw [runGetQuery]
      simp only [hnzb, if_pos]
      rw [List.filter_append, hdbnil]
      simp [rowMatches, hnzb]
    rw [get_eval_allowed (db ++ [u]) _ _
      (by norm_num [MAX_ITEMS_RETURNED])
      (authorize_privileged (db ++ [u]) admin.user_id admin hfa2 hpriv _ false)]
    rw [hq]
    simp [serializeRow]

/-- Witness for the amended C9: self-service creation of the role-User
account "Carl" in `dbRoot`, then a find by the returned id 2 with the
submitted role, instantiated with the stand-in hash that satisfies both
halves of the hexdigest contract. -/
theorem c9_witness :
    UserResource.post hexDigestStub dbRoot (some (JwtOutcome.ok [("user_id", (1 : Int))])) carlArgs 2
      = Except.ok (PostResponse.created 2 "Carl" "carl@example.com", dbRoot ++ [carlRecord])
    ∧ findUser (dbRoot ++ [carlRecord]) 2 = some carlRecord
    ∧ (hexDigestStub "pw").length = 64
    ∧ hexDigestStub "pw" ≠ "pw"
    ∧ UserResource.get (dbRoot ++ [carlRecord]) (some (JwtOutcome.ok [("user_id", (1 : Int))]))
        ⟨2, "", "", UserRole.User, 0, MAX_ITEMS_RETURNED⟩
      = Except.ok (GetResponse.okRows [⟨2, "Carl", "carl@example.com", "User"⟩])
    ∧ (∀ r : UserRecord, serializeRow r = ⟨r.user_id, r.user_name, r.user_mail, r.user_role.name⟩) :=
  c9_amended_roundtrip hexDigestStub hexDigestStub_len hexDigestStub_ne dbRoot rootRecord carlArgs 2
    (by decide) (by decide) (by decide) (by decide) (by decide) (by decide) (by decide)

/-- Claim C10: every GET /user query applies a user_role filter even when
the client supplies none — the parser default is role User, the
truthiness guard fires for every `UserRole` member — so a request without
an explicit user_role parameter returns only role-User records. -/
theorem c10_default_role_filter_only_user_rows
    (db : List UserRecord) (token : JwtOutcome) (args : GetArgs)
    (hrole : args.user_role = UserRole.User)
    (body : List UserOut)
    (hres : UserResource.get db (some token) args = Except.ok (GetResponse.okRows body))
    (u : UserOut) (humem : u ∈ body) :
    (∀ r : UserRole, UserRole.truthy r = true) ∧ u.user_role = "User" := by
  refine ⟨fun r => by cases r <;> rfl, ?_⟩
  rw [UserResource.get] at hres
  split at hres
  · simp at hres
  · split at hres
    · simp at hres
    · simp at hres
    · simp only [Except.ok.injEq, GetResponse.okRows.injEq] at hres
      rw [← hres] at humem
      rcases List.mem_map.mp humem with ⟨r, hrq, hser⟩
      have hrf : r ∈ db.filter (rowMatches args) := by
        simp only [runGetQuery] at hrq
        split at hrq
        · exact hrq
        · exact List.take_subset _ _ hrq
      have hmatch := List.of_mem_filter hrf
      simp [rowMatches, hrole, UserRole.truthy, UserRole.value] at hmatch
      rw [← hser]
      simp [serializeRow, UserRole.name, hmatch.2]

/-- Witness for C10: on the mixed table `dbMix`, a default-parameter GET
by the super-admin returns only the role-User row, whose serialized role
is "User". -/
theorem c10_witness :
    (∀ r : UserRole, UserRole.truthy r = true)
    ∧ (⟨2, "uma", "uma@example.com", "User"⟩ : UserOut).user_role = "User" :=
  c10_default_role_filter_only_user_rows dbMix tokOne ⟨0, "", "", UserRole.User, 0, 20⟩
    rfl [⟨2, "uma", "uma@example.com", "User"⟩] rfl
    ⟨2, "uma", "uma@example.com", "User"⟩ (by decide)

end KevIn
